import Mathlib

/-!
Shallow embedding of the slot-inventory / promo-ledger / booking-workflow
core of the highwaydelite booking backend.

Sources embedded here:
- src/backend/src/models/timeSlot.model.js     (TimeSlot schema, virtuals, methods)
- src/unnamed/part_004                         (PromoCode schema, validateForUser,
                                                calculateDiscount, usePromoCode)
- src/backend/src/index.js                     (Booking schema: statuses, cancelBooking)
- src/backend/src/controllers/booking.controller.js
                                               (createBooking, cancelBooking controllers)
- src/lib/services/api.ts                      (frontend mock pricing, lines 614-618)

Modelling conventions: monetary amounts and JS numbers that claims reason
about arithmetically are rationals; guest counts and capacities are Nat;
Date values are Int timestamps; mongoose sessions/transactions are modelled
as an all-or-nothing commit of the writes accumulated during one controller
call (abortTransaction discards them, commitTransaction applies them).
-/

/-- JS Math.round: rounds half toward positive infinity, which is floor of
x + 1/2 for every real input. -/
def mathRound (x : ℚ) : ℤ := ⌊x + 1/2⌋

/-- JS String.prototype.toLowerCase, character by character (the source
only lowercases ASCII emails, categories and codes). -/
def jsLower (s : String) : String := ⟨s.data.map Char.toLower⟩

/-- JS String.prototype.toUpperCase, character by character. -/
def jsUpper (s : String) : String := ⟨s.data.map Char.toUpper⟩

/-- JS String.prototype.trim: strip leading and trailing whitespace. -/
def jsTrim (s : String) : String :=
  ⟨((s.data.dropWhile Char.isWhitespace).reverse.dropWhile Char.isWhitespace).reverse⟩

namespace Model

/-- Booking.status enum from src/backend/src/index.js (bookingSchema.status):
pending, confirmed, cancelled, completed, refunded. -/
inductive BookingStatus where
  | pending
  | confirmed
  | cancelled
  | completed
  | refunded
deriving DecidableEq, Repr

/-- PromoCode.discountType enum from src/unnamed/part_004. -/
inductive DiscountType where
  | percentage
  | fixed
deriving DecidableEq, Repr

/-- TimeSlot document, from the schema in
src/backend/src/models/timeSlot.model.js. Fields not used by any claim
(date, startTime, slotType, ...) are omitted; cancellationDeadline is kept
as a timestamp because the controllers compare it with the current time. -/
structure TimeSlot where
  experienceId : Nat
  totalCapacity : Nat
  bookedSlots : Nat
  price : ℚ
  specialPrice : Option ℚ
  isAvailable : Bool
  cancellationDeadline : Int
deriving DecidableEq, Repr

namespace TimeSlot

/-- Virtual availableSpots (timeSlot.model.js line 97):
Math.max(0, totalCapacity - bookedSlots). Nat subtraction is exactly
truncation at zero. -/
def availableSpots (ts : TimeSlot) : Nat :=
  ts.totalCapacity - ts.bookedSlots

/-- Virtual isFullyBooked (timeSlot.model.js line 102). -/
def isFullyBooked (ts : TimeSlot) : Bool :=
  ts.totalCapacity ≤ ts.bookedSlots

/-- Virtual effectivePrice (timeSlot.model.js line 122):
specialPrice || price, where a null or zero specialPrice is falsy in JS
and falls back to price. -/
def effectivePrice (ts : TimeSlot) : ℚ :=
  match ts.specialPrice with
  | some sp => if sp ≠ 0 then sp else ts.price
  | none => ts.price

/-- The pre-save middleware (timeSlot.model.js lines 127-140): recomputes
isAvailable from capacity and rejects the document when bookedSlots exceeds
totalCapacity. Returns the document as persisted, or the error message. -/
def save (ts : TimeSlot) : Except String TimeSlot :=
  let ts2 : TimeSlot := { ts with isAvailable := ts.bookedSlots < ts.totalCapacity }
  if ts2.totalCapacity < ts2.bookedSlots then
    .error "Booked slots cannot exceed total capacity"
  else
    .ok ts2

/-- Method bookSlots (timeSlot.model.js lines 143-150): guard on
availableSpots, increment bookedSlots, save. -/
def bookSlots (ts : TimeSlot) (numberOfSlots : Nat) : Except String TimeSlot :=
  if ts.availableSpots < numberOfSlots then
    .error "Not enough available spots"
  else
    TimeSlot.save { ts with bookedSlots := ts.bookedSlots + numberOfSlots }

/-- Method cancelBooking (timeSlot.model.js lines 153-160): guard on
bookedSlots, decrement, save. -/
def cancelBooking (ts : TimeSlot) (numberOfSlots : Nat) : Except String TimeSlot :=
  if ts.bookedSlots < numberOfSlots then
    .error "Cannot cancel more slots than booked"
  else
    TimeSlot.save { ts with bookedSlots := ts.bookedSlots - numberOfSlots }

end TimeSlot

/-- One entry of PromoCode.currentUsage.byUser (src/unnamed/part_004):
a normalized (lowercased) email, a redemption count and a last-used
timestamp. -/
structure UserUsage where
  email : String
  count : Nat
  lastUsed : Int
deriving DecidableEq, Repr

/-- The wall clock as the promo-code model observes it: validateForUser
calls new Date() and reads a timestamp (for the validity window), the
weekday name (for dayOfWeekRestriction) and the HH:MM time of day (for
timeRestriction, modelled as minutes since midnight; the string comparison
on zero-padded HH:MM strings agrees with numeric order). -/
structure Now where
  t : Int
  weekday : String
  hm : Nat
deriving DecidableEq, Repr

/-- PromoCode document, from the schema in src/unnamed/part_004
(lines 132-235). usageLimit.total and maximumDiscountAmount default to
null (unlimited / no cap), hence Option. -/
structure PromoCode where
  code : String
  discountType : DiscountType
  discountValue : ℚ
  minimumOrderValue : ℚ
  maximumDiscountAmount : Option ℚ
  usageLimitTotal : Option Nat
  usageLimitPerUser : Nat
  currentUsageTotal : Nat
  currentUsageByUser : List UserUsage
  isActive : Bool
  validityStart : Int
  validityEnd : Int
  applicableCategories : List String
  applicableExperiences : List Nat
  excludedExperiences : List Nat
  dayOfWeekRestriction : List String
  timeRestrictionStart : Option Nat
  timeRestrictionEnd : Option Nat
deriving DecidableEq, Repr

namespace PromoCode

/-- Virtual isCurrentlyValid (src/unnamed/part_004 lines 310-318):
active, now within the validity period, and the global usage cap (when
set) not yet reached. -/
def isCurrentlyValid (p : PromoCode) (now : Now) : Bool :=
  p.isActive &&
  p.validityStart ≤ now.t &&
  now.t ≤ p.validityEnd &&
  (match p.usageLimitTotal with
   | none => true
   | some l => p.currentUsageTotal < l)

/-- Outcome of validateForUser: the JS object with isValid and the list of
error strings. -/
structure ValidationResult where
  isValid : Bool
  errors : List String
deriving DecidableEq, Repr

/-- Method validateForUser (src/unnamed/part_004 lines 337-405).
The first block is an else-if chain reporting at most one reason for the
whole active/validity-window/global-cap family; the remaining checks each
append their reason independently. Errors are accumulated in source
order. -/
def validateForUser (p : PromoCode) (now : Now) (userEmail : String)
    (orderValue : ℚ) (experienceId : Option Nat) (categoryId : Option String) :
    ValidationResult :=
  let familyErrors : List String :=
    if ¬ p.isCurrentlyValid now then
      if ¬ p.isActive then ["Promo code is inactive"]
      else if now.t < p.validityStart then ["Promo code is not yet active"]
      else if p.validityEnd < now.t then ["Promo code has expired"]
      else if (match p.usageLimitTotal with
               | some l => decide (l ≤ p.currentUsageTotal)
               | none => false) then ["Promo code usage limit reached"]
      else []
    else []
  let minOrderErrors : List String :=
    if orderValue < p.minimumOrderValue then
      ["Minimum order value of " ++ toString p.minimumOrderValue ++ " required"]
    else []
  let perUserErrors : List String :=
    match p.currentUsageByUser.find? (fun u => u.email = jsLower userEmail) with
    | some u =>
        if p.usageLimitPerUser ≤ u.count then
          ["You have already used this promo code the maximum number of times"]
        else []
    | none => []
  let categoryErrors : List String :=
    match categoryId with
    | some c =>
        if p.applicableCategories ≠ [] ∧ c ≠ "" ∧
            ¬ p.applicableCategories.contains (jsLower c) then
          ["Promo code is not applicable for this experience category"]
        else []
    | none => []
  let applicableErrors : List String :=
    match experienceId with
    | some e =>
        if p.applicableExperiences ≠ [] ∧ ¬ p.applicableExperiences.contains e then
          ["Promo code is not applicable for this experience"]
        else []
    | none => []
  let excludedErrors : List String :=
    match experienceId with
    | some e =>
        if p.excludedExperiences ≠ [] ∧ p.excludedExperiences.contains e then
          ["Promo code is not applicable for this experience"]
        else []
    | none => []
  let dayErrors : List String :=
    if p.dayOfWeekRestriction ≠ [] ∧
        ¬ p.dayOfWeekRestriction.contains now.weekday then
      ["Promo code is not valid on this day of the week"]
    else []
  let timeErrors : List String :=
    match p.timeRestrictionStart, p.timeRestrictionEnd with
    | some s, some e =>
        if now.hm < s ∨ e < now.hm then
          ["Promo code is not valid at this time"]
        else []
    | _, _ => []
  let errors := familyErrors ++ minOrderErrors ++ perUserErrors ++
    categoryErrors ++ applicableErrors ++ excludedErrors ++ dayErrors ++ timeErrors
  { isValid := errors = [], errors := errors }

/-- Method calculateDiscount (src/unnamed/part_004 lines 408-426):
percentage or fixed amount, capped by maximumDiscountAmount when that
field is truthy (non-null and nonzero), then capped by the order value,
then rounded to two decimal places with Math.round. -/
def calculateDiscount (p : PromoCode) (orderValue : ℚ) : ℚ :=
  let raw : ℚ :=
    match p.discountType with
    | .percentage => orderValue * p.discountValue / 100
    | .fixed => p.discountValue
  let capped : ℚ :=
    match p.maximumDiscountAmount with
    | some m => if m ≠ 0 ∧ m < raw then m else raw
    | none => raw
  let clamped : ℚ := min capped orderValue
  (mathRound (clamped * 100) : ℚ) / 100

/-- Updates the first byUser entry matching the email, as the JS find +
in-place mutation does (src/unnamed/part_004, usePromoCode). -/
def bumpFirst (e : String) (t : Int) : List UserUsage → List UserUsage
  | [] => []
  | u :: rest =>
      if u.email = e then { u with count := u.count + 1, lastUsed := t } :: rest
      else u :: bumpFirst e t rest

/-- Method usePromoCode (src/unnamed/part_004 lines 429-445): increments
currentUsage.total, then increments the matching byUser entry or pushes a
fresh one with count 1 and lastUsed now. No usage-limit check of any kind
is performed. (The trailing this.save() persists the document; within the
booking transaction that write commits or aborts with the rest.) -/
def usePromoCode (p : PromoCode) (userEmail : String) (t : Int) : PromoCode :=
  let e := jsLower userEmail
  let byUser :=
    if (p.currentUsageByUser.find? (fun u => u.email = e)).isSome then
      bumpFirst e t p.currentUsageByUser
    else
      p.currentUsageByUser ++ [⟨e, 1, t⟩]
  { p with currentUsageTotal := p.currentUsageTotal + 1, currentUsageByUser := byUser }

/-- The redemption count recorded for a user (0 when the user has no
byUser entry), matching how validateForUser reads the per-user counter. -/
def userCount (p : PromoCode) (userEmail : String) : Nat :=
  match p.currentUsageByUser.find? (fun u => u.email = jsLower userEmail) with
  | some u => u.count
  | none => 0

end PromoCode

/-- Experience document (schema in src/unnamed/part_004); only the fields
the booking controller reads. -/
structure Experience where
  id : Nat
  category : String
  isActive : Bool
  price : ℚ
deriving DecidableEq, Repr

/-- The promo snapshot embedded in a booking
(booking.controller.js lines 111-115). -/
structure AppliedPromo where
  code : String
  discountType : DiscountType
  discountValue : ℚ
deriving DecidableEq, Repr

/-- Booking document from the schema in src/backend/src/index.js, restricted
to the fields the claims touch; status defaults to pending. -/
structure Booking where
  bookingReference : String
  experienceId : Nat
  timeSlotId : Nat
  firstName : String
  lastName : String
  email : String
  phone : String
  numberOfGuests : Nat
  basePrice : ℚ
  totalAmount : ℚ
  discountAmount : ℚ
  finalAmount : ℚ
  currency : String
  promoCode : Option AppliedPromo
  status : BookingStatus
  cancelledAt : Option Int
  cancelledBy : Option String
  cancellationReason : Option String
deriving DecidableEq, Repr

/-- Method cancelBooking on the booking document
(src/backend/src/index.js lines 258-267): set status cancelled and fill
cancellationDetails. -/
def Booking.cancelBooking (b : Booking) (reason : String) (cancelledBy : String)
    (t : Int) : Booking :=
  { b with
    status := .cancelled,
    cancelledAt := some t,
    cancelledBy := some cancelledBy,
    cancellationReason := some reason }

/-- Persistent state shared by the controllers: the collections the booking
workflow reads and writes. Slots are keyed by id. -/
structure DB where
  experiences : List Experience
  slots : List (Nat × TimeSlot)
  promos : List PromoCode
  bookings : List Booking
deriving DecidableEq, Repr

/-- Static findByCode (src/unnamed/part_004 line 461): findOne on the
uppercased code (stored codes are uppercase). -/
def DB.findByCode (db : DB) (code : String) : Option PromoCode :=
  db.promos.find? (fun p => p.code = jsUpper code)

/-- A dot in the list that has at least one character after it. -/
def dotWithSuffix : List Char → Bool
  | [] => false
  | ['.'] => false
  | '.' :: _ :: _ => true
  | _ :: rest => dotWithSuffix rest

/-- The email regex of the controllers: one or more non-space non-at
characters, an at sign, more such characters, a dot, then a nonempty tail.
Equivalently: no whitespace, exactly one at sign with a nonempty local
part, and the domain has a dot preceded and followed by at least one
character. -/
def emailOk (s : String) : Bool :=
  let cs := s.data
  (!cs.any Char.isWhitespace) &&
  (cs.count '@' == 1) &&
  (match cs.takeWhile (fun c => c ≠ '@'), (cs.dropWhile (fun c => c ≠ '@')).tail with
   | [], _ => false
   | _ :: _, [] => false
   | _ :: _, _ :: rest => dotWithSuffix rest)

/-- Error shape thrown by the controllers (ApiError with an HTTP status);
the three statuses actually thrown are 400, 404 and 500. -/
inductive ApiErr where
  | badRequest (msg : String)
  | notFound (msg : String)
  | internal (msg : String)
deriving DecidableEq, Repr

/-- Observable side-effecting steps inside one createBooking attempt, in
the order the controller performs them: passing the capacity check
(line 75), the promo usage-counter mutation (line 118), the booking insert
(line 152) and the slot bookedSlots mutation (line 155). -/
inductive Ev where
  | capacityCheck
  | promoRedeem
  | bookingPersist
  | slotBook
deriving DecidableEq, Repr

/-- Request body of POST /bookings as the controller destructures it. -/
structure BookingReq where
  experienceId : Nat
  timeSlotId : Nat
  firstName : String
  lastName : String
  email : String
  phone : String
  numberOfGuests : Nat
  promoCode : Option String
deriving DecidableEq, Repr

namespace Controller

/-- The promo-code phase of createBooking
(booking.controller.js lines 92-119): find by code, validateForUser,
calculateDiscount, snapshot, usePromoCode. Returns the discount, the
snapshot and the updated promo document, or the ApiError thrown. -/
def applyPromo (db : DB) (code : String) (now : Now) (email : String)
    (totalAmount : ℚ) (experienceId : Nat) (category : String) :
    Except ApiErr (ℚ × AppliedPromo × PromoCode) :=
  match db.findByCode code with
  | none => .error (.badRequest "Invalid promo code")
  | some p =>
      let v := p.validateForUser now email totalAmount (some experienceId) (some category)
      if ¬ v.isValid then
        .error (.badRequest ("Promo code validation failed: " ++
          String.intercalate ", " v.errors))
      else
        .ok (p.calculateDiscount totalAmount,
             ⟨p.code, p.discountType, p.discountValue⟩,
             p.usePromoCode email now.t)

/-- Request-shape validation of createBooking
(booking.controller.js lines 24-42): required fields, user fields, email
format, guest range. Returns the ApiError thrown, if any. -/
def validateRequest (req : BookingReq) : Option ApiErr :=
  if req.experienceId = 0 ∨ req.timeSlotId = 0 ∨ req.numberOfGuests = 0 then
    some (.badRequest "Missing required booking information")
  else if req.firstName = "" ∨ req.lastName = "" ∨ req.email = "" then
    some (.badRequest "User information is incomplete")
  else if ¬ emailOk req.email then
    some (.badRequest "Invalid email format")
  else if req.numberOfGuests < 1 ∨ 20 < req.numberOfGuests then
    some (.badRequest "Number of guests must be between 1 and 20")
  else
    none

/-- Document loading and checks of createBooking
(booking.controller.js lines 49-72): experience exists and active, slot
exists and available and belongs to the experience. -/
def loadDocs (db : DB) (req : BookingReq) : Except ApiErr (Experience × TimeSlot) :=
  match db.experiences.find? (fun e => e.id = req.experienceId) with
  | none => .error (.notFound "Experience not found")
  | some exp =>
    if ¬ exp.isActive then
      .error (.badRequest "Experience is not currently available")
    else
      match db.slots.lookup req.timeSlotId with
      | none => .error (.notFound "Time slot not found")
      | some ts =>
        if ¬ ts.isAvailable then
          .error (.badRequest "Time slot is not available")
        else if ts.experienceId ≠ req.experienceId then
          .error (.badRequest "Time slot does not belong to the selected experience")
        else
          .ok (exp, ts)

/-- The optional promo phase of createBooking
(booking.controller.js line 92: promoCode && promoCode.trim()): when a
nonempty code is supplied, run applyPromo; otherwise zero discount and no
promo write. -/
def promoStep (db : DB) (req : BookingReq) (now : Now) (totalAmount : ℚ)
    (category : String) :
    Except ApiErr (ℚ × Option AppliedPromo × Option PromoCode) :=
  match req.promoCode with
  | some c =>
      if jsTrim c ≠ "" then
        match applyPromo db (jsTrim c) now req.email totalAmount
            req.experienceId category with
        | .error e => .error e
        | .ok (d, ap, p2) => .ok (d, some ap, some p2)
      else .ok (0, none, none)
  | none => .ok (0, none, none)

/-- Body of the createBooking transaction
(booking.controller.js lines 24-158): everything inside the try block, on
the session view of the database. Returns the created booking together
with the session writes to commit, or the error that aborts; alongside,
the trace of side-effecting steps reached. persistFault injects a storage
failure at the booking.save step (the simulated fault of the atomicity
property). genRef stands in for the randomly generated booking
reference. -/
def createBookingTx (db : DB) (req : BookingReq) (now : Now)
    (persistFault : Bool) (genRef : String) :
    Except ApiErr (Booking × DB) × List Ev :=
  match validateRequest req with
  | some e => (.error e, [])
  | none =>
    match loadDocs db req with
    | .error e => (.error e, [])
    | .ok (exp, ts) =>
      if ts.availableSpots < req.numberOfGuests then
        (.error (.badRequest ("Only " ++ toString ts.availableSpots ++
          " spots available, but " ++ toString req.numberOfGuests ++ " requested")), [])
      else if ts.cancellationDeadline < now.t then
        (.error (.badRequest "Booking deadline has passed for this time slot"),
         [Ev.capacityCheck])
      else
        let basePrice := ts.effectivePrice
        let totalAmount := basePrice * req.numberOfGuests
        match promoStep db req now totalAmount exp.category with
        | .error e => (.error e, [Ev.capacityCheck])
        | .ok (discountAmount, applied, promoUpdate) =>
          let trace1 := Ev.capacityCheck ::
            (if promoUpdate.isSome then [Ev.promoRedeem] else [])
          let finalAmount := totalAmount - discountAmount
          let booking : Booking :=
            { bookingReference := genRef,
              experienceId := req.experienceId,
              timeSlotId := req.timeSlotId,
              firstName := jsTrim req.firstName,
              lastName := jsTrim req.lastName,
              email := jsTrim (jsLower req.email),
              phone := jsTrim req.phone,
              numberOfGuests := req.numberOfGuests,
              basePrice := basePrice,
              totalAmount := totalAmount,
              discountAmount := discountAmount,
              finalAmount := finalAmount,
              currency := "INR",
              promoCode := applied,
              status := .pending,
              cancelledAt := none,
              cancelledBy := none,
              cancellationReason := none }
          if persistFault then
            (.error (.internal "Failed to create booking"), trace1)
          else
            let trace2 := trace1 ++ [Ev.bookingPersist]
            match ts.bookSlots req.numberOfGuests with
            | .error _ => (.error (.internal "Failed to create booking"), trace2)
            | .ok ts2 =>
                let db2 : DB :=
                  { db with
                    slots := db.slots.map
                      (fun q => if q.1 = req.timeSlotId then (q.1, ts2) else q),
                    promos :=
                      match promoUpdate with
                      | some p2 => db.promos.map
                          (fun q => if q.code = p2.code then p2 else q)
                      | none => db.promos,
                    bookings := db.bookings ++ [booking] }
                (.ok (booking, db2), trace2 ++ [Ev.slotBook])

/-- Result of one createBooking controller call: the response, the
database after commit or abort, and the trace of attempted steps. -/
structure CBOut where
  result : Except ApiErr Booking
  db : DB
  trace : List Ev
deriving Repr

/-- Controller createBooking (booking.controller.js lines 13-189): run the
transaction body; commitTransaction applies its writes on success,
abortTransaction discards every session write on any error. -/
def createBooking (db : DB) (req : BookingReq) (now : Now)
    (persistFault : Bool) (genRef : String) : CBOut :=
  match createBookingTx db req now persistFault genRef with
  | (.ok (b, db2), tr) => ⟨.ok b, db2, tr⟩
  | (.error e, tr) => ⟨.error e, db, tr⟩

/-- Result of one cancelBooking controller call. -/
structure CXOut where
  result : Except ApiErr Booking
  db : DB
deriving Repr

/-- Controller cancelBooking (booking.controller.js lines 286-342):
lookup by reference, reject already cancelled / completed, deadline check
against the slot, then cancel the booking document and release the
slots, all in one transaction. -/
def cancelBooking (db : DB) (reference : String) (reason : String)
    (now : Now) : CXOut :=
  match db.bookings.find? (fun b => b.bookingReference = reference) with
  | none => ⟨.error (.notFound "Booking not found"), db⟩
  | some b =>
    if b.status = .cancelled then
      ⟨.error (.badRequest "Booking is already cancelled"), db⟩
    else if b.status = .completed then
      ⟨.error (.badRequest "Cannot cancel completed booking"), db⟩
    else
      match db.slots.lookup b.timeSlotId with
      | none => ⟨.error (.notFound "Time slot not found"), db⟩
      | some ts =>
        if ts.cancellationDeadline < now.t then
          ⟨.error (.badRequest "Cancellation deadline has passed"), db⟩
        else
          let b2 := b.cancelBooking reason "user" now.t
          match ts.cancelBooking b.numberOfGuests with
          | .error _ => ⟨.error (.internal "Failed to cancel booking"), db⟩
          | .ok ts2 =>
              ⟨.ok b2,
               { db with
                 bookings := db.bookings.map
                   (fun q => if q.bookingReference = reference then b2 else q),
                 slots := db.slots.map
                   (fun q => if q.1 = b.timeSlotId then (q.1, ts2) else q) }⟩

end Controller

/-- Price summary shape of the frontend mock booking service. -/
structure PriceSummary where
  subtotal : ℚ
  discount : ℚ
  tax : ℚ
  total : ℚ
deriving DecidableEq, Repr

/-- Pricing of the frontend mock createBooking
(src/lib/services/api.ts lines 614-618): ten percent tax on the subtotal,
and a discount that is always zero in the returned summary. -/
def frontendPriceSummary (basePrice : ℚ) (numberOfGuests : Nat) : PriceSummary :=
  let subtotal := basePrice * numberOfGuests
  let tax := subtotal * (1/10)
  { subtotal := subtotal, discount := 0, tax := tax, total := subtotal + tax }

/-- Modelled from the spec: the computePrice formula the claim states
(spec section 4.3 PricingEngine); no function of this name exists in the
source, so this definition follows the words of the spec for comparison
against the source pricing. -/
def specComputePrice (basePrice : ℚ) (numberOfGuests : Nat)
    (discountAmount : ℚ) (taxRate : ℚ) : PriceSummary :=
  let subtotal := basePrice * numberOfGuests
  let discount := min discountAmount subtotal
  let taxableAmount := subtotal - discount
  let tax := taxableAmount * taxRate
  { subtotal := subtotal, discount := discount, tax := tax,
    total := taxableAmount + tax }

/-- A serialized run of reserve transactions against one slot: each
createBooking call's slot write is one atomic transaction (the mongoose
session aborts one of two conflicting writers), so any concurrent
execution is equivalent to running the bookSlots calls in some serial
order. Returns the final slot and, per request, none for success or the
error message for failure. -/
def reserveRun (ts : TimeSlot) : List Nat → TimeSlot × List (Option String)
  | [] => (ts, [])
  | n :: rest =>
    match ts.bookSlots n with
    | .ok ts2 =>
        let r := reserveRun ts2 rest
        (r.1, none :: r.2)
    | .error m =>
        let r := reserveRun ts rest
        (r.1, some m :: r.2)

/-- Total number of guests reserved by the successful calls of a run. -/
def sumOk : List Nat → List (Option String) → Nat
  | n :: ns, o :: os => (if o.isNone then n else 0) + sumOk ns os
  | _, _ => 0

/-- Slot states reachable from a starting state through successful
reserve (bookSlots) and release (cancelBooking) operations. -/
inductive SlotReachable : TimeSlot → TimeSlot → Prop
  | refl (ts : TimeSlot) : SlotReachable ts ts
  | book {s t u : TimeSlot} {n : Nat} :
      SlotReachable s t → t.bookSlots n = .ok u → SlotReachable s u
  | release {s t u : TimeSlot} {n : Nat} :
      SlotReachable s t → t.cancelBooking n = .ok u → SlotReachable s u

end Model

namespace Model.TimeSlot

theorem bookSlots_ok_spec {ts : TimeSlot} {n : Nat} {u : TimeSlot}
    (h : ts.bookSlots n = .ok u) :
    u.bookedSlots = ts.bookedSlots + n ∧ u.totalCapacity = ts.totalCapacity ∧
    u.bookedSlots ≤ u.totalCapacity ∧ n ≤ ts.availableSpots := by
  by_cases h1 : ts.availableSpots < n
  · simp [bookSlots, h1] at h
  · by_cases h2 : ts.totalCapacity < ts.bookedSlots + n
    · simp [bookSlots, save, h1, h2] at h
    · simp [bookSlots, save, h1, h2] at h
      subst h
      refine ⟨rfl, rfl, by dsimp; omega, by omega⟩

theorem cancelBooking_ok_spec {ts : TimeSlot} {n : Nat} {u : TimeSlot}
    (h : ts.cancelBooking n = .ok u) :
    u.bookedSlots = ts.bookedSlots - n ∧ u.totalCapacity = ts.totalCapacity ∧
    u.bookedSlots ≤ u.totalCapacity ∧ n ≤ ts.bookedSlots := by
  by_cases h1 : ts.bookedSlots < n
  · simp [cancelBooking, h1] at h
  · by_cases h2 : ts.totalCapacity < ts.bookedSlots - n
    · simp [cancelBooking, save, h1, h2] at h
    · simp [cancelBooking, save, h1, h2] at h
      subst h
      refine ⟨rfl, rfl, by dsimp; omega, by omega⟩

theorem bookSlots_error_spec {ts : TimeSlot} {n : Nat} {m : String}
    (h0 : ts.bookedSlots ≤ ts.totalCapacity) (h : ts.bookSlots n = .error m) :
    m = "Not enough available spots" ∧ ts.availableSpots < n := by
  by_cases h1 : ts.availableSpots < n
  · simp [bookSlots, h1] at h
    exact ⟨h.symm, h1⟩
  · exfalso
    have h2 : ¬ ts.totalCapacity < ts.bookedSlots + n := by
      unfold availableSpots at h1
      omega
    simp [bookSlots, save, h1, h2] at h

end Model.TimeSlot

namespace Model

theorem reserveRun_spec (reqs : List Nat) (ts : TimeSlot)
    (h0 : ts.bookedSlots ≤ ts.totalCapacity) :
    (reserveRun ts reqs).1.totalCapacity = ts.totalCapacity ∧
    (reserveRun ts reqs).1.bookedSlots =
      ts.bookedSlots + sumOk reqs (reserveRun ts reqs).2 ∧
    (reserveRun ts reqs).1.bookedSlots ≤ ts.totalCapacity ∧
    (∀ m, some m ∈ (reserveRun ts reqs).2 → m = "Not enough available spots") := by
  induction reqs generalizing ts with
  | nil =>
      refine ⟨rfl, by simp [reserveRun, sumOk], h0, ?_⟩
      intro m hm
      simp [reserveRun] at hm
  | cons n rest ih =>
      unfold reserveRun
      cases hb : ts.bookSlots n with
      | ok ts2 =>
          dsimp only
          obtain ⟨he1, he2, he3, _⟩ := TimeSlot.bookSlots_ok_spec hb
          obtain ⟨ih1, ih2, ih3, ih4⟩ := ih ts2 (by omega)
          refine ⟨by rw [ih1, he2], ?_, by omega, ?_⟩
          · simp only [sumOk, Option.isNone_none, if_pos, ih2, he1]
            omega
          · intro m hm
            simp only [List.mem_cons] at hm
            rcases hm with hm | hm
            · exact absurd hm (by simp)
            · exact ih4 m hm
      | error msg =>
          dsimp only
          obtain ⟨hmsg, _⟩ := TimeSlot.bookSlots_error_spec h0 hb
          obtain ⟨ih1, ih2, ih3, ih4⟩ := ih ts h0
          refine ⟨ih1, ?_, by omega, ?_⟩
          · simp only [sumOk, Option.isNone_some, Bool.false_eq_true, if_false, ih2]
            omega
          · intro m hm
            simp only [List.mem_cons] at hm
            rcases hm with hm | hm
            · cases hm
              exact hmsg
            · exact ih4 m hm

/-- Claim C3: every slot state reachable through successful reserve
(bookSlots) and release (cancelBooking) operations from a state satisfying
the capacity invariant keeps bookedSlots between 0 and totalCapacity, and
its derived availableSpots is exactly totalCapacity minus bookedSlots as
integers, hence never negative. -/
theorem slot_capacity_invariant (s t : TimeSlot)
    (h0 : s.bookedSlots ≤ s.totalCapacity) (h : SlotReachable s t) :
    t.bookedSlots ≤ t.totalCapacity ∧
    (t.availableSpots : ℤ) = (t.totalCapacity : ℤ) - (t.bookedSlots : ℤ) ∧
    0 ≤ (t.totalCapacity : ℤ) - (t.bookedSlots : ℤ) := by
  have key : t.bookedSlots ≤ t.totalCapacity := by
    induction h with
    | refl => exact h0
    | book _ hb _ => exact (TimeSlot.bookSlots_ok_spec hb).2.2.1
    | release _ hc _ => exact (TimeSlot.cancelBooking_ok_spec hc).2.2.1
  refine ⟨key, ?_, ?_⟩
  · unfold TimeSlot.availableSpots
    omega
  · omega

/-- Claim C3 witness: a concrete chain of one reserve and one release from
a fresh slot of capacity 5. -/
theorem slot_capacity_invariant_witness :
    (⟨1, 5, 2, 100, none, true, 0⟩ : TimeSlot).bookedSlots ≤ 5 ∧
    ((⟨1, 5, 2, 100, none, true, 0⟩ : TimeSlot).availableSpots : ℤ) =
      ((5 : Nat) : ℤ) - ((⟨1, 5, 2, 100, none, true, 0⟩ : TimeSlot).bookedSlots : ℤ) ∧
    0 ≤ ((5 : Nat) : ℤ) - ((⟨1, 5, 2, 100, none, true, 0⟩ : TimeSlot).bookedSlots : ℤ) :=
  slot_capacity_invariant ⟨1, 5, 0, 100, none, true, 0⟩ ⟨1, 5, 2, 100, none, true, 0⟩
    (by decide)
    (SlotReachable.release
      (SlotReachable.book (SlotReachable.refl _) (u := ⟨1, 5, 3, 100, none, true, 0⟩)
        (n := 3) (by rfl))
      (n := 1) (by rfl))

/-- Claim C2: for any serialization of concurrent reserve transactions on
one slot (each bookSlots call is one atomic transaction, so the storage
layer serializes conflicting writers), the guests reserved by the
successful calls never exceed the initial free capacity, the slot ends
within capacity, and every failed call failed with the
insufficient-capacity error. -/
theorem no_oversell (ts : TimeSlot) (reqs : List Nat)
    (h0 : ts.bookedSlots ≤ ts.totalCapacity) :
    sumOk reqs (reserveRun ts reqs).2 + ts.bookedSlots ≤ ts.totalCapacity ∧
    (reserveRun ts reqs).1.bookedSlots ≤ ts.totalCapacity ∧
    (∀ m, some m ∈ (reserveRun ts reqs).2 → m = "Not enough available spots") := by
  obtain ⟨h1, h2, h3, h4⟩ := reserveRun_spec reqs ts h0
  exact ⟨by omega, h3, h4⟩

/-- Claim C2 witness: capacity 5, two reserve calls of 3 guests each:
the first succeeds, the second fails with the insufficient-capacity
error, and 3 + 0 is at most 5. -/
theorem no_oversell_witness :
    sumOk [3, 3] (reserveRun ⟨1, 5, 0, 100, none, true, 0⟩ [3, 3]).2 + 0 ≤ 5 ∧
    (reserveRun ⟨1, 5, 0, 100, none, true, 0⟩ [3, 3]).1.bookedSlots ≤ 5 ∧
    (∀ m, some m ∈ (reserveRun ⟨1, 5, 0, 100, none, true, 0⟩ [3, 3]).2 →
      m = "Not enough available spots") :=
  no_oversell ⟨1, 5, 0, 100, none, true, 0⟩ [3, 3] (by decide)

end Model

namespace Model

/-- Claim C1: whenever a createBooking call fails at any step inside the
transaction, including an injected storage fault at the persist step after
promo redemption, the abort leaves the committed state exactly as before
the call: slots (booked counts), promo usage counters and the booking
collection are unchanged. -/
theorem createBooking_rollback (db : DB) (req : BookingReq) (now : Now)
    (persistFault : Bool) (genRef : String) (e : ApiErr)
    (h : (Controller.createBooking db req now persistFault genRef).result = .error e) :
    (Controller.createBooking db req now persistFault genRef).db.slots = db.slots ∧
    (Controller.createBooking db req now persistFault genRef).db.promos = db.promos ∧
    (Controller.createBooking db req now persistFault genRef).db.bookings = db.bookings := by
  rcases htx : Controller.createBookingTx db req now persistFault genRef with ⟨r, tr⟩
  cases r with
  | ok v =>
      rcases v with ⟨b, db2⟩
      simp [Controller.createBooking, htx] at h
  | error e2 =>
      simp [Controller.createBooking, htx]

/-- Claim C8: the cancellation controller never touches the promo-code
collection, so a cancellation (successful or not, promo applied or not)
leaves every promo usage counter unchanged. -/
theorem cancelBooking_preserves_promos (db : DB) (reference reason : String)
    (now : Now) :
    (Controller.cancelBooking db reference reason now).db.promos = db.promos := by
  unfold Controller.cancelBooking
  repeat' split
  all_goals rfl

theorem find?_bumpFirst (e : String) (t : Int) (l : List UserUsage)
    (u : UserUsage) (h : l.find? (fun x => x.email = e) = some u) :
    (PromoCode.bumpFirst e t l).find? (fun x => x.email = e) =
      some { u with count := u.count + 1, lastUsed := t } := by
  induction l with
  | nil => simp at h
  | cons a as ih =>
      by_cases ha : a.email = e
      · rw [List.find?_cons_of_pos _ (by simp [ha])] at h
        cases h
        unfold PromoCode.bumpFirst
        rw [if_pos ha, List.find?_cons_of_pos _ (by simp [ha])]
      · rw [List.find?_cons_of_neg _ (by simp [ha])] at h
        unfold PromoCode.bumpFirst
        rw [if_neg ha, List.find?_cons_of_neg _ (by simp [ha])]
        exact ih h

/-- Claim C10: usePromoCode increments currentUsage.total by exactly one
and the caller's per-user count by one, creating a count-1 entry stamped
with the current time when the user has none, without any check against
usageLimit.total or usageLimit.perUser. -/
theorem usePromoCode_unconditional (p : PromoCode) (email : String) (t : Int) :
    (p.usePromoCode email t).currentUsageTotal = p.currentUsageTotal + 1 ∧
    (p.usePromoCode email t).userCount email = p.userCount email + 1 ∧
    (p.currentUsageByUser.find? (fun x => x.email = jsLower email) = none →
      (p.usePromoCode email t).currentUsageByUser =
        p.currentUsageByUser ++ [⟨jsLower email, 1, t⟩]) := by
  refine ⟨rfl, ?_, ?_⟩
  · unfold PromoCode.usePromoCode PromoCode.userCount
    cases hf : p.currentUsageByUser.find? (fun x => x.email = jsLower email) with
    | some u =>
        simp only [hf, Option.isSome_some, if_pos]
        rw [find?_bumpFirst _ _ _ _ hf]
    | none =>
        simp only [hf, Option.isSome_none, Bool.false_eq_true, if_false]
        rw [List.find?_append, hf]
        simp
  · intro hf
    unfold PromoCode.usePromoCode
    simp [hf]

end Model

namespace Model

/-- Fixture: an active adventure experience priced 1000. -/
def exp0 : Experience := ⟨1, "adventure", true, 1000⟩

/-- Fixture: an available slot of capacity 5 for exp0, price 1000,
deadline in the future relative to now0. -/
def slot0 : TimeSlot := ⟨1, 5, 0, 1000, none, true, 1000000⟩

/-- Fixture: an unrestricted fixed-200 promo code. -/
def promo0 : PromoCode :=
  { code := "SAVE200", discountType := .fixed, discountValue := 200,
    minimumOrderValue := 0, maximumDiscountAmount := none,
    usageLimitTotal := none, usageLimitPerUser := 5,
    currentUsageTotal := 0, currentUsageByUser := [],
    isActive := true, validityStart := 0, validityEnd := 2000000,
    applicableCategories := [], applicableExperiences := [],
    excludedExperiences := [], dayOfWeekRestriction := [],
    timeRestrictionStart := none, timeRestrictionEnd := none }

/-- Fixture database for createBooking runs. -/
def db0 : DB := ⟨[exp0], [(10, slot0)], [promo0], []⟩

/-- Fixture clock. -/
def now0 : Now := ⟨500000, "monday", 600⟩

/-- Fixture request: two guests with the SAVE200 promo code. -/
def req0 : BookingReq := ⟨1, 10, "A", "B", "a@b.com", "", 2, some "SAVE200"⟩

/-- The booking the fixture run persists. -/
def b0 : Booking :=
  { bookingReference := "R1", experienceId := 1, timeSlotId := 10,
    firstName := "A", lastName := "B", email := "a@b.com", phone := "",
    numberOfGuests := 2, basePrice := 1000, totalAmount := 2000,
    discountAmount := 200, finalAmount := 1800, currency := "INR",
    promoCode := some ⟨"SAVE200", .fixed, 200⟩, status := .pending,
    cancelledAt := none, cancelledBy := none, cancellationReason := none }

theorem strFact1 : emailOk "a@b.com" = true := by decide

theorem strFact2 : jsTrim "SAVE200" = "SAVE200" := by decide

theorem strFact3 : jsUpper "SAVE200" = "SAVE200" := by decide

theorem strFact4 : jsLower "a@b.com" = "a@b.com" := by decide

theorem strFact5 : jsTrim "A" = "A" := by decide

theorem strFact6 : jsTrim "B" = "B" := by decide

theorem strFact7 : jsTrim "" = "" := by decide

theorem strFact8 : jsTrim "a@b.com" = "a@b.com" := by decide

theorem strFact9 : ("A" : String) ≠ "" := by decide

theorem strFact10 : ("B" : String) ≠ "" := by decide

theorem strFact11 : ("a@b.com" : String) ≠ "" := by decide

theorem strFact12 : ("SAVE200" : String) ≠ "" := by decide

set_option maxHeartbeats 1000000 in
theorem run0_result :
    (Controller.createBooking db0 req0 now0 false "R1").result = .ok b0 := by
  norm_num [Controller.createBooking, Controller.createBookingTx, Controller.applyPromo,
    Controller.validateRequest, Controller.loadDocs, Controller.promoStep,
    db0, req0, now0, exp0, slot0, promo0, b0,
    strFact1, strFact2, strFact3, strFact4, strFact5, strFact6, strFact7, strFact8,
    strFact9, strFact10, strFact11, strFact12,
    TimeSlot.availableSpots, TimeSlot.effectivePrice, TimeSlot.bookSlots, TimeSlot.save,
    DB.findByCode, PromoCode.validateForUser, PromoCode.isCurrentlyValid,
    PromoCode.calculateDiscount, PromoCode.usePromoCode, PromoCode.bumpFirst, mathRound]

set_option maxHeartbeats 1000000 in
theorem run0_trace :
    (Controller.createBooking db0 req0 now0 false "R1").trace =
      [Ev.capacityCheck, Ev.promoRedeem, Ev.bookingPersist, Ev.slotBook] := by
  norm_num [Controller.createBooking, Controller.createBookingTx, Controller.applyPromo,
    Controller.validateRequest, Controller.loadDocs, Controller.promoStep,
    db0, req0, now0, exp0, slot0, promo0,
    strFact1, strFact2, strFact3, strFact4, strFact5, strFact6, strFact7, strFact8,
    strFact9, strFact10, strFact11, strFact12,
    TimeSlot.availableSpots, TimeSlot.effectivePrice, TimeSlot.bookSlots, TimeSlot.save,
    DB.findByCode, PromoCode.validateForUser, PromoCode.isCurrentlyValid,
    PromoCode.calculateDiscount, PromoCode.usePromoCode, PromoCode.bumpFirst, mathRound]

set_option maxHeartbeats 1000000 in
theorem runFault_result :
    (Controller.createBooking db0 req0 now0 true "R1").result =
      .error (.internal "Failed to create booking") := by
  norm_num [Controller.createBooking, Controller.createBookingTx, Controller.applyPromo,
    Controller.validateRequest, Controller.loadDocs, Controller.promoStep,
    db0, req0, now0, exp0, slot0, promo0,
    strFact1, strFact2, strFact3, strFact4, strFact5, strFact6, strFact7, strFact8,
    strFact9, strFact10, strFact11, strFact12,
    TimeSlot.availableSpots, TimeSlot.effectivePrice, TimeSlot.bookSlots, TimeSlot.save,
    DB.findByCode, PromoCode.validateForUser, PromoCode.isCurrentlyValid,
    PromoCode.calculateDiscount, PromoCode.usePromoCode, PromoCode.bumpFirst, mathRound]

end Model

namespace Model

/-- Claim C1 witness: the fixture run with an injected persist fault (the
failure happens after promo redemption) errors out and leaves slots,
promos and bookings untouched. -/
theorem createBooking_rollback_witness :
    (Controller.createBooking db0 req0 now0 true "R1").result =
      .error (.internal "Failed to create booking") ∧
    (Controller.createBooking db0 req0 now0 true "R1").db.slots = db0.slots ∧
    (Controller.createBooking db0 req0 now0 true "R1").db.promos = db0.promos ∧
    (Controller.createBooking db0 req0 now0 true "R1").db.bookings = db0.bookings := by
  have h := createBooking_rollback db0 req0 now0 true "R1" _ runFault_result
  exact ⟨runFault_result, h.1, h.2.1, h.2.2⟩

theorem tx_promo_trace (db : DB) (req : BookingReq) (now : Now)
    (persistFault : Bool) (genRef : String) :
    Ev.promoRedeem ∈ (Controller.createBookingTx db req now persistFault genRef).2 →
    (Controller.createBookingTx db req now persistFault genRef).2.indexOf
        Ev.capacityCheck = 0 ∧
    (Controller.createBookingTx db req now persistFault genRef).2.indexOf
        Ev.promoRedeem = 1 := by
  unfold Controller.createBookingTx
  repeat' split
  all_goals (try dsimp only)
  all_goals (repeat' split)
  all_goals (try dsimp only)
  all_goals decide

/-- Claim C9 (amended): within one createBooking attempt the capacity
check is confirmed first (trace position 0) and promo redemption, when it
happens, is the very next side-effecting step (position 1) — the
bookedSlots mutation itself comes later — and any failing attempt leaves
the committed promo counters unchanged, so a redemption is never consumed
by an attempt that fails on capacity. -/
theorem createBooking_capacity_before_redeem (db : DB) (req : BookingReq)
    (now : Now) (persistFault : Bool) (genRef : String) :
    (Ev.promoRedeem ∈ (Controller.createBooking db req now persistFault genRef).trace →
      (Controller.createBooking db req now persistFault genRef).trace.indexOf
          Ev.capacityCheck = 0 ∧
      (Controller.createBooking db req now persistFault genRef).trace.indexOf
          Ev.promoRedeem = 1) ∧
    (∀ e, (Controller.createBooking db req now persistFault genRef).result = .error e →
      (Controller.createBooking db req now persistFault genRef).db.promos = db.promos) := by
  have htr := tx_promo_trace db req now persistFault genRef
  rcases htx : Controller.createBookingTx db req now persistFault genRef with ⟨r, tr⟩
  rw [htx] at htr
  cases r with
  | ok v =>
      rcases v with ⟨b, db2⟩
      constructor
      · intro hm
        simp only [Controller.createBooking, htx] at hm ⊢
        exact htr hm
      · intro e he
        simp [Controller.createBooking, htx] at he
  | error e2 =>
      constructor
      · intro hm
        simp only [Controller.createBooking, htx] at hm ⊢
        exact htr hm
      · intro e he
        simp [Controller.createBooking, htx]

/-- Claim C9 counterexample: in the fixture run the promo-usage mutation
(trace index 1) happens strictly before the slot bookedSlots mutation
(trace index 3), refuting that the slot reservation is performed before
promo redemption. -/
theorem promoRedeem_precedes_slotBook :
    (Controller.createBooking db0 req0 now0 false "R1").result = .ok b0 ∧
    (Controller.createBooking db0 req0 now0 false "R1").trace =
      [Ev.capacityCheck, Ev.promoRedeem, Ev.bookingPersist, Ev.slotBook] ∧
    (Controller.createBooking db0 req0 now0 false "R1").trace.indexOf Ev.promoRedeem <
      (Controller.createBooking db0 req0 now0 false "R1").trace.indexOf Ev.slotBook := by
  refine ⟨run0_result, run0_trace, ?_⟩
  rw [run0_trace]
  decide

/-- Claim C9 witness: on the fixture run (which does redeem a promo) the
trace puts the capacity check at index 0 and the redemption at index 1. -/
theorem createBooking_capacity_before_redeem_witness :
    (Controller.createBooking db0 req0 now0 false "R1").trace.indexOf
        Ev.capacityCheck = 0 ∧
    (Controller.createBooking db0 req0 now0 false "R1").trace.indexOf
        Ev.promoRedeem = 1 :=
  (createBooking_capacity_before_redeem db0 req0 now0 false "R1").1
    (by rw [run0_trace]; decide)

end Model

namespace Model

/-- Fixture: a promo code whose global usage limit (1) is already
exhausted. -/
def promoLimit : PromoCode :=
  { code := "ONCE", discountType := .fixed, discountValue := 50,
    minimumOrderValue := 0, maximumDiscountAmount := none,
    usageLimitTotal := some 1, usageLimitPerUser := 1,
    currentUsageTotal := 1, currentUsageByUser := [],
    isActive := true, validityStart := 0, validityEnd := 2000000,
    applicableCategories := [], applicableExperiences := [],
    excludedExperiences := [], dayOfWeekRestriction := [],
    timeRestrictionStart := none, timeRestrictionEnd := none }

/-- Claim C10 witness: redeeming the exhausted promoLimit code still
increments the counters, pushing currentUsage.total to 2, past its
usageLimit.total of 1, and creates a fresh per-user entry. -/
theorem usePromoCode_unconditional_witness :
    (promoLimit.usePromoCode "u@x.com" 7).currentUsageTotal = 2 ∧
    promoLimit.usageLimitTotal = some 1 ∧
    (promoLimit.usePromoCode "u@x.com" 7).currentUsageByUser =
      promoLimit.currentUsageByUser ++ [⟨jsLower "u@x.com", 1, 7⟩] := by
  have h := usePromoCode_unconditional promoLimit "u@x.com" 7
  exact ⟨by rw [h.1]; rfl, rfl, h.2.2 (by rfl)⟩

theorem tx_ok_pricing (db : DB) (req : BookingReq) (now : Now)
    (persistFault : Bool) (genRef : String) (b : Booking) (db2 : DB)
    (tr : List Ev)
    (h : Controller.createBookingTx db req now persistFault genRef =
      (.ok (b, db2), tr)) :
    b.totalAmount = b.basePrice * (b.numberOfGuests : ℚ) ∧
    b.finalAmount = b.totalAmount - b.discountAmount := by
  unfold Controller.createBookingTx at h
  repeat' split at h
  all_goals (try dsimp only at h)
  all_goals (repeat' split at h)
  all_goals simp only [Prod.mk.injEq, Except.ok.injEq, reduceCtorEq,
    false_and, and_false] at h
  all_goals obtain ⟨⟨hb, -⟩, -⟩ := h
  all_goals subst hb
  all_goals exact ⟨rfl, rfl⟩

end Model

namespace Model

/-- Claim C4 (amended): the backend prices a booking as
totalAmount = basePrice * numberOfGuests and
finalAmount = totalAmount - discountAmount with no tax step, while the
frontend mock prices subtotal = basePrice * guests, discount 0,
tax = 10 percent of the subtotal and total = subtotal + tax; both are
pure functions of their inputs. -/
theorem booking_pricing_formulas (db : DB) (req : BookingReq) (now : Now)
    (persistFault : Bool) (genRef : String) (b : Booking)
    (h : (Controller.createBooking db req now persistFault genRef).result = .ok b) :
    b.totalAmount = b.basePrice * (b.numberOfGuests : ℚ) ∧
    b.finalAmount = b.totalAmount - b.discountAmount ∧
    (∀ (base : ℚ) (g : Nat),
      (frontendPriceSummary base g).subtotal = base * g ∧
      (frontendPriceSummary base g).discount = 0 ∧
      (frontendPriceSummary base g).tax = base * g * (1/10) ∧
      (frontendPriceSummary base g).total = base * g + base * g * (1/10)) := by
  rcases htx : Controller.createBookingTx db req now persistFault genRef with ⟨r, tr⟩
  cases r with
  | ok v =>
      rcases v with ⟨b2, db2⟩
      simp only [Controller.createBooking, htx] at h
      obtain ⟨h1, h2⟩ := tx_ok_pricing db req now persistFault genRef b2 db2 tr htx
      cases h
      exact ⟨h1, h2, fun base g => ⟨rfl, rfl, rfl, rfl⟩⟩
  | error e =>
      simp [Controller.createBooking, htx] at h

/-- Claim C4 counterexample: at the inputs of the claim
(basePrice 1000, two guests, discount 200, tax rate 10 percent) the spec
formula yields 1980, but the booking the backend persists has
finalAmount 1800 (no tax) and the frontend mock yields 2200 (tax but no
discount); neither equals 1980. -/
theorem computePrice_code_divergence :
    (specComputePrice 1000 2 200 (1/10)).total = 1980 ∧
    (Controller.createBooking db0 req0 now0 false "R1").result = .ok b0 ∧
    b0.totalAmount = 2000 ∧ b0.discountAmount = 200 ∧ b0.finalAmount = 1800 ∧
    ((1800 : ℚ) ≠ 1980) ∧
    (frontendPriceSummary 1000 2).total = 2200 ∧ ((2200 : ℚ) ≠ 1980) := by
  refine ⟨?_, run0_result, rfl, rfl, rfl, by norm_num, ?_, by norm_num⟩
  · norm_num [specComputePrice]
  · norm_num [frontendPriceSummary]

/-- Claim C4 witness: the fixture run produces a booking whose pricing
satisfies the amended backend formulas. -/
theorem booking_pricing_formulas_witness :
    b0.totalAmount = b0.basePrice * (b0.numberOfGuests : ℚ) ∧
    b0.finalAmount = b0.totalAmount - b0.discountAmount :=
  ⟨(booking_pricing_formulas db0 req0 now0 false "R1" b0 run0_result).1,
   (booking_pricing_formulas db0 req0 now0 false "R1" b0 run0_result).2.1⟩

end Model

namespace Model

/-- Fixture: a promo code that is inactive AND expired AND has a minimum
order value of 5000. -/
def promoBad : PromoCode :=
  { code := "BAD", discountType := .fixed, discountValue := 50,
    minimumOrderValue := 5000, maximumDiscountAmount := none,
    usageLimitTotal := none, usageLimitPerUser := 1,
    currentUsageTotal := 0, currentUsageByUser := [],
    isActive := false, validityStart := 0, validityEnd := 100,
    applicableCategories := [], applicableExperiences := [],
    excludedExperiences := [], dayOfWeekRestriction := [],
    timeRestrictionStart := none, timeRestrictionEnd := none }

/-- Claim C5 counterexample: promoBad simultaneously violates the active
flag, the validity window and the minimum order value at order 2000, yet
validateForUser returns only TWO reasons: the active/window/global-cap
family is an else-if chain that reports just its first failing member. -/
theorem validateForUser_shortCircuits_family :
    promoBad.isActive = false ∧
    promoBad.validityEnd < now0.t ∧
    (2000 : ℚ) < promoBad.minimumOrderValue ∧
    (promoBad.validateForUser now0 "a@b.com" 2000 (some 1)
      (some "adventure")).errors.length = 2 := by
  refine ⟨rfl, by decide, by norm_num [promoBad], ?_⟩
  norm_num [PromoCode.validateForUser, PromoCode.isCurrentlyValid, promoBad, now0]

/-- Claim C5 (amended): outside the active/window/global-cap family, the
checks are evaluated without short-circuiting and their reasons accumulate:
a code that passes that family but fails minimum order, per-user cap and
category restriction at once yields exactly three reasons and is invalid. -/
theorem validateForUser_accumulates (p : PromoCode) (now : Now)
    (email : String) (order : ℚ) (expId : Option Nat) (c : String)
    (u : UserUsage)
    (hval : p.isCurrentlyValid now = true)
    (hmin : order < p.minimumOrderValue)
    (hfind : p.currentUsageByUser.find? (fun x => x.email = jsLower email) = some u)
    (hcnt : p.usageLimitPerUser ≤ u.count)
    (hcats : p.applicableCategories ≠ [])
    (hc : c ≠ "")
    (hnc : ¬ p.applicableCategories.contains (jsLower c))
    (hae : p.applicableExperiences = [])
    (hee : p.excludedExperiences = [])
    (hdow : p.dayOfWeekRestriction = [])
    (hts : p.timeRestrictionStart = none) :
    (p.validateForUser now email order expId (some c)).errors.length = 3 ∧
    (p.validateForUser now email order expId (some c)).isValid = false := by
  have hmem : jsLower c ∉ p.applicableCategories := by simpa using hnc
  cases expId with
  | none =>
      unfold PromoCode.validateForUser
      simp [hval, hmin, hfind, hcnt, hcats, hc, hmem, hae, hee, hdow, hts]
  | some eid =>
      unfold PromoCode.validateForUser
      simp [hval, hmin, hfind, hcnt, hcats, hc, hmem, hae, hee, hdow, hts]

/-- Fixture: a currently valid promo failing minimum order (5000),
per-user cap (already used once by the user) and category restriction
(food only) at once. -/
def promoTriple : PromoCode :=
  { code := "TRIPLE", discountType := .fixed, discountValue := 50,
    minimumOrderValue := 5000, maximumDiscountAmount := none,
    usageLimitTotal := none, usageLimitPerUser := 1,
    currentUsageTotal := 1, currentUsageByUser := [⟨"a@b.com", 1, 0⟩],
    isActive := true, validityStart := 0, validityEnd := 2000000,
    applicableCategories := ["food"], applicableExperiences := [],
    excludedExperiences := [], dayOfWeekRestriction := [],
    timeRestrictionStart := none, timeRestrictionEnd := none }

/-- Claim C5 witness: promoTriple violates exactly the three independent
rules at order 2000 for user a@b.com in category adventure, and
validateForUser reports exactly three reasons. -/
theorem validateForUser_accumulates_witness :
    (promoTriple.validateForUser now0 "a@b.com" 2000 (some 1)
      (some "adventure")).errors.length = 3 ∧
    (promoTriple.validateForUser now0 "a@b.com" 2000 (some 1)
      (some "adventure")).isValid = false := by
  apply validateForUser_accumulates (u := ⟨"a@b.com", 1, 0⟩)
  · decide
  · norm_num [promoTriple]
  · decide
  · decide
  · decide
  · decide
  · decide
  · rfl
  · rfl
  · rfl
  · rfl

end Model

/-- Rounding half up is monotone. -/
theorem mathRound_le_mathRound {x y : ℚ} (h : x ≤ y) :
    mathRound x ≤ mathRound y := by
  unfold mathRound
  exact Int.floor_mono (by linarith)

/-- Rounding an integer changes nothing. -/
theorem mathRound_intCast (z : ℤ) : mathRound (z : ℚ) = z := by
  unfold mathRound
  rw [Int.floor_int_add]
  norm_num

/-- Dividing a half-up rounding of 100 x by 100 cannot exceed a bound b
that lies in minor units (b times 100 is an integer) and dominates x. -/
theorem mathRound_div_le {x b : ℚ} (hxb : x ≤ b) (hden : (b * 100).den = 1) :
    (mathRound (x * 100) : ℚ) / 100 ≤ b := by
  have hb : ((b * 100).num : ℚ) = b * 100 := (Rat.den_eq_one_iff _).mp hden
  have h1 : mathRound (x * 100) ≤ mathRound (b * 100) :=
    mathRound_le_mathRound (by nlinarith)
  have h2 : mathRound (b * 100) = (b * 100).num := by
    conv_lhs => rw [← hb]
    exact mathRound_intCast _
  have h3 : (mathRound (x * 100) : ℚ) ≤ b * 100 := by
    rw [← hb]
    exact_mod_cast h1.trans_eq h2
  linarith

namespace Model

/-- Claim C6 (amended): calculateDiscount never exceeds an orderValue in
minor units; it respects maximumDiscountAmount whenever that cap is set
and nonzero (a cap stored as 0 is falsy in the source and acts as no
cap); and with no cap it is exactly the rounded min of the
percentage/fixed amount and the order value. -/
theorem calculateDiscount_amended (p : PromoCode) (order : ℚ)
    (hden : (order * 100).den = 1) :
    p.calculateDiscount order ≤ order ∧
    (∀ m, p.maximumDiscountAmount = some m → m ≠ 0 → (m * 100).den = 1 →
      p.calculateDiscount order ≤ m) ∧
    (p.maximumDiscountAmount = none → p.discountType = .percentage →
      p.calculateDiscount order =
        (mathRound (min (order * p.discountValue / 100) order * 100) : ℚ) / 100) ∧
    (p.maximumDiscountAmount = none → p.discountType = .fixed →
      p.calculateDiscount order =
        (mathRound (min p.discountValue order * 100) : ℚ) / 100) := by
  refine ⟨?_, ?_, ?_, ?_⟩
  · simp only [PromoCode.calculateDiscount]
    exact mathRound_div_le (min_le_right _ _) hden
  · intro m hm hm0 hmden
    simp only [PromoCode.calculateDiscount, hm]
    apply mathRound_div_le _ hmden
    refine le_trans (min_le_left _ _) ?_
    split
    · exact le_refl m
    · rename_i hcond
      exact not_lt.mp (fun hlt => hcond ⟨hm0, hlt⟩)
  · intro hnone htype
    simp only [PromoCode.calculateDiscount, hnone, htype]
  · intro hnone htype
    simp only [PromoCode.calculateDiscount, hnone, htype]

/-- Fixture: a 10 percent promo whose maximumDiscountAmount is stored as
the (falsy) value 0. -/
def promoCap0 : PromoCode :=
  { code := "CAP0", discountType := .percentage, discountValue := 10,
    minimumOrderValue := 0, maximumDiscountAmount := some 0,
    usageLimitTotal := none, usageLimitPerUser := 1,
    currentUsageTotal := 0, currentUsageByUser := [],
    isActive := true, validityStart := 0, validityEnd := 2000000,
    applicableCategories := [], applicableExperiences := [],
    excludedExperiences := [], dayOfWeekRestriction := [],
    timeRestrictionStart := none, timeRestrictionEnd := none }

/-- Claim C6 counterexample: with the cap set to 0 the code does not clamp
at all (0 is falsy in the truthiness guard), so a 500 order gets the full
50 discount instead of being clamped to the cap of 0. -/
theorem calculateDiscount_zero_cap_not_clamped :
    promoCap0.maximumDiscountAmount = some 0 ∧
    promoCap0.calculateDiscount 500 = 50 ∧ ¬ ((50 : ℚ) ≤ 0) := by
  refine ⟨rfl, ?_, by norm_num⟩
  norm_num [PromoCode.calculateDiscount, promoCap0, mathRound, min_def]

/-- Fixture: a 10 percent promo capped at 150. -/
def promoCap150 : PromoCode :=
  { promoCap0 with code := "CAP150", maximumDiscountAmount := some 150 }

/-- Claim C6 witness: at order 2000 the capped 10 percent discount stays
within both the order value and the 150 cap. -/
theorem calculateDiscount_amended_witness :
    promoCap150.calculateDiscount 2000 ≤ 2000 ∧
    promoCap150.calculateDiscount 2000 ≤ 150 := by
  have h := calculateDiscount_amended promoCap150 2000
    (by rw [show ((2000 : ℚ) * 100) = 200000 from by norm_num]; rfl)
  exact ⟨h.1, h.2.1 150 rfl (by norm_num)
    (by rw [show ((150 : ℚ) * 100) = 15000 from by norm_num]; rfl)⟩

end Model

namespace Model

/-- Fixture: a REFUNDED booking of 2 guests on slot 10. -/
def bRef : Booking :=
  { bookingReference := "RF", experienceId := 1, timeSlotId := 10,
    firstName := "A", lastName := "B", email := "a@b.com", phone := "",
    numberOfGuests := 2, basePrice := 1000, totalAmount := 2000,
    discountAmount := 0, finalAmount := 2000, currency := "INR",
    promoCode := none, status := .refunded,
    cancelledAt := none, cancelledBy := none, cancellationReason := none }

/-- Fixture: slot 10 with 3 of 5 spots booked and a future deadline. -/
def slotC7 : TimeSlot := ⟨1, 5, 3, 1000, none, true, 1000000⟩

/-- Fixture database holding the refunded booking. -/
def dbC7 : DB := ⟨[exp0], [(10, slotC7)], [promo0], [bRef]⟩

/-- Claim C7 counterexample: a booking whose status is refunded — neither
pending nor confirmed — is NOT rejected: the controller only rejects the
statuses cancelled and completed, so cancelling the refunded booking
succeeds. -/
theorem cancel_refunded_succeeds :
    bRef.status = .refunded ∧
    (Controller.cancelBooking dbC7 "RF" "changed plans" now0).result.isOk = true :=
  ⟨rfl, by decide⟩

theorem lookup_map_replace (l : List (Nat × TimeSlot)) (k : Nat)
    (ts ts2 : TimeSlot) (h : l.lookup k = some ts) :
    (l.map (fun q => if q.1 = k then (q.1, ts2) else q)).lookup k = some ts2 := by
  induction l with
  | nil => simp at h
  | cons a as ih =>
      rcases a with ⟨k1, v1⟩
      simp only [List.map_cons]
      by_cases hk : k1 = k
      · subst hk
        rw [if_pos rfl]
        simp [List.lookup]
      · rw [if_neg hk]
        have hne : (k == k1) = false := by
          simp [Ne.symm hk]
        simp only [List.lookup, hne] at h ⊢
        exact ih h

/-- Claim C7 (amended): cancel fails NotFound when no booking matches the
reference; it fails AlreadyCancelled exactly for status cancelled and
AlreadyCompleted exactly for status completed (any other status,
including refunded, is cancellable); it fails DeadlinePassed when now is
past the slot deadline; otherwise it returns the booking cancelled, with
status cancelled and the cancellation reason recorded, and in the
committed state the slot has the booking's guest count released
(bookedSlots decremented, capacity unchanged) and the stored booking
record is replaced by the cancelled one. -/
theorem cancelBooking_status_policy (db : DB) (reference reason : String)
    (now : Now) :
    (db.bookings.find? (fun x => x.bookingReference = reference) = none →
      (Controller.cancelBooking db reference reason now).result =
        .error (.notFound "Booking not found")) ∧
    (∀ b, db.bookings.find? (fun x => x.bookingReference = reference) = some b →
      (b.status = .cancelled →
        (Controller.cancelBooking db reference reason now).result =
          .error (.badRequest "Booking is already cancelled")) ∧
      (b.status ≠ .cancelled → b.status = .completed →
        (Controller.cancelBooking db reference reason now).result =
          .error (.badRequest "Cannot cancel completed booking")) ∧
      (b.status ≠ .cancelled → b.status ≠ .completed →
        ∀ ts, db.slots.lookup b.timeSlotId = some ts →
          (ts.cancellationDeadline < now.t →
            (Controller.cancelBooking db reference reason now).result =
              .error (.badRequest "Cancellation deadline has passed")) ∧
          (now.t ≤ ts.cancellationDeadline →
            b.numberOfGuests ≤ ts.bookedSlots →
            ts.bookedSlots ≤ ts.totalCapacity →
            ∃ ts2,
              (Controller.cancelBooking db reference reason now).result =
                .ok (b.cancelBooking reason "user" now.t) ∧
              (b.cancelBooking reason "user" now.t).status = .cancelled ∧
              (b.cancelBooking reason "user" now.t).cancellationReason = some reason ∧
              (Controller.cancelBooking db reference reason now).db.slots.lookup
                b.timeSlotId = some ts2 ∧
              ts2.bookedSlots = ts.bookedSlots - b.numberOfGuests ∧
              ts2.totalCapacity = ts.totalCapacity ∧
              (Controller.cancelBooking db reference reason now).db.bookings =
                db.bookings.map (fun q =>
                  if q.bookingReference = reference then
                    b.cancelBooking reason "user" now.t
                  else q)))) := by
  constructor
  · intro h
    simp [Controller.cancelBooking, h]
  · intro b hb
    refine ⟨?_, ?_, ?_⟩
    · intro hc
      simp [Controller.cancelBooking, hb, hc]
    · intro hnc hcp
      simp [Controller.cancelBooking, hb, hnc, hcp]
    · intro hnc hcp ts hts
      constructor
      · intro hdl
        simp [Controller.cancelBooking, hb, hnc, hcp, hts, hdl]
      · intro hdl hg hcap
        obtain ⟨ts2, hbook⟩ : ∃ ts2, ts.cancelBooking b.numberOfGuests = .ok ts2 := by
          unfold TimeSlot.cancelBooking TimeSlot.save
          rw [if_neg (by omega : ¬ ts.bookedSlots < b.numberOfGuests)]
          dsimp only
          rw [if_neg (by omega : ¬ ts.totalCapacity < ts.bookedSlots - b.numberOfGuests)]
          exact ⟨_, rfl⟩
        obtain ⟨he1, he2, -, -⟩ := TimeSlot.cancelBooking_ok_spec hbook
        refine ⟨ts2, ?_, rfl, rfl, ?_, he1, he2, ?_⟩
        · simp [Controller.cancelBooking, hb, hnc, hcp, hts, not_lt.mpr hdl, hbook]
        · have hsl : (Controller.cancelBooking db reference reason now).db.slots =
              db.slots.map (fun q => if q.1 = b.timeSlotId then (q.1, ts2) else q) := by
            simp [Controller.cancelBooking, hb, hnc, hcp, hts, not_lt.mpr hdl, hbook]
          rw [hsl]
          exact lookup_map_replace _ _ _ _ hts
        · simp [Controller.cancelBooking, hb, hnc, hcp, hts, not_lt.mpr hdl, hbook]

/-- Claim C7 witness: the refunded fixture booking is cancelled through
the success path: the response carries the booking with status cancelled
and the reason recorded, and in the committed state slot 10 has the two
guests released (bookedSlots down from 3 to 1, capacity still 5) and the
stored record is the cancelled booking. -/
theorem cancelBooking_status_policy_witness :
    (Controller.cancelBooking dbC7 "RF" "changed plans" now0).result =
      .ok (bRef.cancelBooking "changed plans" "user" now0.t) ∧
    (bRef.cancelBooking "changed plans" "user" now0.t).status = .cancelled ∧
    (bRef.cancelBooking "changed plans" "user" now0.t).cancellationReason =
      some "changed plans" ∧
    (∃ ts2, (Controller.cancelBooking dbC7 "RF" "changed plans" now0).db.slots.lookup
        bRef.timeSlotId = some ts2 ∧
      ts2.bookedSlots = slotC7.bookedSlots - bRef.numberOfGuests ∧
      ts2.totalCapacity = slotC7.totalCapacity) ∧
    (Controller.cancelBooking dbC7 "RF" "changed plans" now0).db.bookings =
      dbC7.bookings.map (fun q =>
        if q.bookingReference = "RF" then
          bRef.cancelBooking "changed plans" "user" now0.t
        else q) := by
  obtain ⟨ts2, h1, h2, h3, h4, h5, h6, h7⟩ :=
    (((cancelBooking_status_policy dbC7 "RF" "changed plans" now0).2 bRef (by rfl)).2.2
      (by decide) (by decide) slotC7 (by rfl)).2 (by decide) (by decide) (by decide)
  exact ⟨h1, h2, h3, ⟨ts2, h4, h5, h6⟩, h7⟩

end Model
